import Mathlib

/-!
Verification of the solar microgrid sizing calculator (`src/app.py`).

The computational core is the pure function `calculate_microgrid_size`,
embedded here over the rationals.  Python's `round(x, 1)` rounds to the
nearest multiple of 1/10 with ties going to the even last digit; this is
embedded as `round1` built on an explicit round-half-to-even integer
rounding `roundHalfEven`.  Divisions in the Python source raise
`ZeroDivisionError` on a zero divisor; `calculate_microgrid_size_checked`
models that by returning `none` exactly when a divisor is zero.
-/

namespace SolarMicrogrid

/-- Round a rational to the nearest integer, ties to even: the embedding of
Python's built-in rounding mode on exact values. -/
def roundHalfEven (x : ℚ) : ℤ :=
  if Int.fract x < 1/2 then ⌊x⌋
  else if 1/2 < Int.fract x then ⌊x⌋ + 1
  else if ⌊x⌋ % 2 = 0 then ⌊x⌋ else ⌊x⌋ + 1

/-- Rounding to one decimal place, the embedding of Python `round(x, 1)`. -/
def round1 (x : ℚ) : ℚ := (roundHalfEven (x * 10) : ℚ) / 10

/-- The result record returned by `calculate_microgrid_size`
(`src/app.py` lines 34-38). -/
structure SizingResult where
  battery_capacity_kwh : ℚ
  solar_capacity_kw : ℚ
  inverter_size_kw : ℚ
deriving DecidableEq, Repr

/-- `adjusted_daily_usage` intermediate of `src/app.py` line 15. -/
def adjusted_daily_usage (daily_kwh_usage system_losses : ℚ) : ℚ :=
  daily_kwh_usage * (1 + system_losses)

/-- `adjusted_peak_demand` intermediate of `src/app.py` line 16. -/
def adjusted_peak_demand (peak_kw_demand system_losses : ℚ) : ℚ :=
  peak_kw_demand * (1 + system_losses)

/-- `required_battery_capacity` intermediate of `src/app.py` lines 19-23. -/
def required_battery_capacity
    (daily_kwh_usage backup_hours battery_depth_of_discharge
      system_losses safety_factor : ℚ) : ℚ :=
  adjusted_daily_usage daily_kwh_usage system_losses * backup_hours / 24
    / battery_depth_of_discharge * safety_factor

/-- `required_solar_capacity` intermediate of `src/app.py` lines 26-29. -/
def required_solar_capacity
    (daily_kwh_usage solar_peak_hours system_losses safety_factor : ℚ) : ℚ :=
  adjusted_daily_usage daily_kwh_usage system_losses / solar_peak_hours
    * safety_factor

/-- `required_inverter_size` intermediate of `src/app.py` line 32. -/
def required_inverter_size
    (peak_kw_demand system_losses safety_factor : ℚ) : ℚ :=
  adjusted_peak_demand peak_kw_demand system_losses * safety_factor

/-- The embedding of `calculate_microgrid_size` (`src/app.py` lines 4-38):
the three intermediate quantities, each rounded to one decimal place. -/
def calculate_microgrid_size
    (daily_kwh_usage peak_kw_demand backup_hours solar_peak_hours
      battery_depth_of_discharge system_losses safety_factor : ℚ) :
    SizingResult :=
  { battery_capacity_kwh := round1 (required_battery_capacity daily_kwh_usage
      backup_hours battery_depth_of_discharge system_losses safety_factor)
    solar_capacity_kw := round1 (required_solar_capacity daily_kwh_usage
      solar_peak_hours system_losses safety_factor)
    inverter_size_kw := round1 (required_inverter_size peak_kw_demand
      system_losses safety_factor) }

/-- Python evaluation of `calculate_microgrid_size`, where a division by
zero raises `ZeroDivisionError` instead of producing a result: `none`
models the raised error, `some` a normal return.  The two divisors are
`battery_depth_of_discharge` (line 21) and `solar_peak_hours` (line 27). -/
def calculate_microgrid_size_checked
    (daily_kwh_usage peak_kw_demand backup_hours solar_peak_hours
      battery_depth_of_discharge system_losses safety_factor : ℚ) :
    Option SizingResult :=
  if battery_depth_of_discharge = 0 then none
  else if solar_peak_hours = 0 then none
  else some (calculate_microgrid_size daily_kwh_usage peak_kw_demand
    backup_hours solar_peak_hours battery_depth_of_discharge
    system_losses safety_factor)

/-- The business presets of `EXAMPLE_PROFILES` (`src/app.py` lines 41-46),
with the string keys of the Python dict embedded as an enumeration. -/
inductive BusinessType where
  | smallRetailStore
  | restaurant
  | smallOffice
  | custom
deriving DecidableEq, Repr

/-- `EXAMPLE_PROFILES` (`src/app.py` lines 41-46): each preset maps to its
fixed `(daily_kwh, peak_kw)` pair. -/
def EXAMPLE_PROFILES : BusinessType → ℚ × ℚ
  | .smallRetailStore => (50, 8)
  | .restaurant => (200, 25)
  | .smallOffice => (75, 12)
  | .custom => (100, 15)

/-- The algorithm of spec section 4.1 transcribed from the spec text, for
comparison with the code embedding: adjusted usage and demand, then the
three rounded outputs. -/
def compute_spec
    (dailyEnergyUsageKwh peakPowerDemandKw backupHours solarPeakHours
      batteryDepthOfDischarge systemLosses safetyFactor : ℚ) : SizingResult :=
  let adjustedDailyUsage := dailyEnergyUsageKwh * (1 + systemLosses)
  let adjustedPeakDemand := peakPowerDemandKw * (1 + systemLosses)
  { battery_capacity_kwh := round1 (adjustedDailyUsage * backupHours / 24
      / batteryDepthOfDischarge * safetyFactor)
    solar_capacity_kw := round1 (adjustedDailyUsage / solarPeakHours
      * safetyFactor)
    inverter_size_kw := round1 (adjustedPeakDemand * safetyFactor) }

/-- The configuration domains of spec section 3: backup hours in [12,72],
solar peak hours in [3,7], depth of discharge in [0.5,0.9], system losses
in [0.1,0.3], safety factor in [1.1,1.5]. -/
def validConfig
    (backup_hours solar_peak_hours battery_depth_of_discharge
      system_losses safety_factor : ℚ) : Prop :=
  12 ≤ backup_hours ∧ backup_hours ≤ 72 ∧
  3 ≤ solar_peak_hours ∧ solar_peak_hours ≤ 7 ∧
  1/2 ≤ battery_depth_of_discharge ∧ battery_depth_of_discharge ≤ 9/10 ∧
  1/10 ≤ system_losses ∧ system_losses ≤ 3/10 ∧
  11/10 ≤ safety_factor ∧ safety_factor ≤ 3/2

/-! ### Properties of the rounding function -/

lemma floor_le_roundHalfEven (x : ℚ) : ⌊x⌋ ≤ roundHalfEven x := by
  unfold roundHalfEven
  split_ifs <;> omega

lemma roundHalfEven_le_floor_add_one (x : ℚ) : roundHalfEven x ≤ ⌊x⌋ + 1 := by
  unfold roundHalfEven
  split_ifs <;> omega

lemma roundHalfEven_mono {x y : ℚ} (h : x ≤ y) :
    roundHalfEven x ≤ roundHalfEven y := by
  rcases lt_or_eq_of_le (Int.floor_mono h) with hf | hf
  · have h1 := roundHalfEven_le_floor_add_one x
    have h2 := floor_le_roundHalfEven y
    omega
  · have hfr : Int.fract x ≤ Int.fract y := by
      unfold Int.fract
      rw [hf]
      linarith
    unfold roundHalfEven
    rw [hf]
    split_ifs <;> first | omega | linarith

lemma round1_mono {x y : ℚ} (h : x ≤ y) : round1 x ≤ round1 y := by
  unfold round1
  have h10 : x * 10 ≤ y * 10 := by linarith
  have hz := roundHalfEven_mono h10
  have hc : ((roundHalfEven (x * 10) : ℚ)) ≤ (roundHalfEven (y * 10) : ℚ) := by
    exact_mod_cast hz
  linarith

lemma roundHalfEven_nonneg {x : ℚ} (h : 0 ≤ x) : 0 ≤ roundHalfEven x := by
  have h1 := floor_le_roundHalfEven x
  have h2 : (0 : ℤ) ≤ ⌊x⌋ := Int.floor_nonneg.mpr h
  omega

lemma round1_nonneg {x : ℚ} (h : 0 ≤ x) : 0 ≤ round1 x := by
  unfold round1
  have h1 : (0 : ℤ) ≤ roundHalfEven (x * 10) := roundHalfEven_nonneg (by linarith)
  have h2 : (0 : ℚ) ≤ (roundHalfEven (x * 10) : ℚ) := by exact_mod_cast h1
  linarith

lemma roundHalfEven_tie (k : ℤ) : roundHalfEven ((k : ℚ) + 1 / 2) % 2 = 0 := by
  have h1 : (⌊(1 / 2 : ℚ)⌋ : ℤ) = 0 := by norm_num
  have h2 : Int.fract ((1 : ℚ) / 2) = 1 / 2 := by
    unfold Int.fract
    rw [h1]
    norm_num
  unfold roundHalfEven
  rw [Int.fract_int_add, Int.floor_int_add, h2, h1]
  split_ifs with hlt hev
  · linarith
  · omega
  · omega

/-! ### Claim theorems -/

/-- C1: for every input pair and every configuration,
`calculate_microgrid_size` computes exactly the section 4.1 algorithm:
adjusted usage and demand scaled by one plus the losses, then the three
outputs obtained by the stated formulas, each rounded to one decimal. -/
theorem compute_refines_spec
    (daily_kwh_usage peak_kw_demand backup_hours solar_peak_hours
      battery_depth_of_discharge system_losses safety_factor : ℚ) :
    calculate_microgrid_size daily_kwh_usage peak_kw_demand backup_hours
        solar_peak_hours battery_depth_of_discharge system_losses safety_factor
      = compute_spec daily_kwh_usage peak_kw_demand backup_hours
        solar_peak_hours battery_depth_of_discharge system_losses
        safety_factor := rfl

/-- C2 counterexample: with `daily_kwh_usage = 0` and everything else at
the defaults, evaluation raises nothing and returns a zeroed result
(battery and solar capacities both 0), so the claimed `InvalidInput`
failure does not occur. -/
theorem zero_usage_not_rejected :
    calculate_microgrid_size_checked 0 15 24 5 0.8 0.15 1.2
      = some { battery_capacity_kwh := 0, solar_capacity_kw := 0,
               inverter_size_kw := 20.7 } := by
  unfold calculate_microgrid_size_checked calculate_microgrid_size
    required_battery_capacity required_solar_capacity required_inverter_size
    adjusted_daily_usage adjusted_peak_demand round1 roundHalfEven
  norm_num [Int.fract]

/-- C2 amended: the function performs no input validation; with
`daily_kwh_usage = 0` (and nonzero divisors, so no division error occurs)
it silently returns a result whose battery and solar capacities are 0,
with the inverter size still computed from the peak demand. -/
theorem zero_usage_silently_returns_zeroed
    (peak_kw_demand backup_hours solar_peak_hours battery_depth_of_discharge
      system_losses safety_factor : ℚ)
    (hD : battery_depth_of_discharge ≠ 0) (hH : solar_peak_hours ≠ 0) :
    calculate_microgrid_size_checked 0 peak_kw_demand backup_hours
        solar_peak_hours battery_depth_of_discharge system_losses safety_factor
      = some { battery_capacity_kwh := 0, solar_capacity_kw := 0,
               inverter_size_kw := round1 (required_inverter_size
                 peak_kw_demand system_losses safety_factor) } := by
  have hb : required_battery_capacity 0 backup_hours battery_depth_of_discharge
      system_losses safety_factor = 0 := by
    unfold required_battery_capacity adjusted_daily_usage
    ring
  have hs : required_solar_capacity 0 solar_peak_hours system_losses
      safety_factor = 0 := by
    unfold required_solar_capacity adjusted_daily_usage
    ring
  have h0 : round1 0 = 0 := by
    unfold round1 roundHalfEven
    norm_num [Int.fract]
  unfold calculate_microgrid_size_checked
  rw [if_neg hD, if_neg hH]
  unfold calculate_microgrid_size
  rw [hb, hs, h0]

/-- C2 witness: the amended theorem applied at the default configuration. -/
theorem zero_usage_silently_returns_zeroed_witness :
    (4 / 5 : ℚ) ≠ 0 ∧ (5 : ℚ) ≠ 0 ∧
    calculate_microgrid_size_checked 0 15 24 5 (4 / 5) (3 / 20) (6 / 5)
      = some { battery_capacity_kwh := 0, solar_capacity_kw := 0,
               inverter_size_kw := round1 (required_inverter_size 15 (3 / 20)
                 (6 / 5)) } :=
  ⟨by norm_num, by norm_num,
    zero_usage_silently_returns_zeroed 15 24 5 (4 / 5) (3 / 20) (6 / 5)
      (by norm_num) (by norm_num)⟩

/-- C3: the default boundary scenario (usage 100, demand 15, defaults
24 h backup, 5 peak sun hours, 0.8 depth of discharge, 0.15 losses,
1.2 safety factor) yields exactly 172.5 kWh battery, 27.6 kW solar and
20.7 kW inverter. -/
theorem boundary_scenario_defaults :
    calculate_microgrid_size 100 15 24 5 0.8 0.15 1.2
      = { battery_capacity_kwh := 172.5, solar_capacity_kw := 27.6,
          inverter_size_kw := 20.7 } := by
  unfold calculate_microgrid_size required_battery_capacity
    required_solar_capacity required_inverter_size adjusted_daily_usage
    adjusted_peak_demand round1 roundHalfEven
  norm_num [Int.fract]

/-- C4: the Restaurant preset maps to usage 200 and demand 25, and
computing on that pair with the default configuration yields 345.0 kWh
battery, 55.2 kW solar and 34.5 kW inverter. -/
theorem restaurant_preset_scenario :
    EXAMPLE_PROFILES BusinessType.restaurant = (200, 25) ∧
    calculate_microgrid_size 200 25 24 5 0.8 0.15 1.2
      = { battery_capacity_kwh := 345.0, solar_capacity_kw := 55.2,
          inverter_size_kw := 34.5 } := by
  constructor
  · rfl
  · unfold calculate_microgrid_size required_battery_capacity
      required_solar_capacity required_inverter_size adjusted_daily_usage
      adjusted_peak_demand round1 roundHalfEven
    norm_num [Int.fract]

/-- C6: doubling the daily usage doubles the pre-rounding battery and
solar quantities exactly, and leaves the rounded inverter size of
`calculate_microgrid_size` completely unchanged. -/
theorem doubling_daily_usage_scaling
    (daily_kwh_usage peak_kw_demand backup_hours solar_peak_hours
      battery_depth_of_discharge system_losses safety_factor : ℚ) :
    required_battery_capacity (2 * daily_kwh_usage) backup_hours
        battery_depth_of_discharge system_losses safety_factor
      = 2 * required_battery_capacity daily_kwh_usage backup_hours
        battery_depth_of_discharge system_losses safety_factor ∧
    required_solar_capacity (2 * daily_kwh_usage) solar_peak_hours
        system_losses safety_factor
      = 2 * required_solar_capacity daily_kwh_usage solar_peak_hours
        system_losses safety_factor ∧
    (calculate_microgrid_size (2 * daily_kwh_usage) peak_kw_demand
        backup_hours solar_peak_hours battery_depth_of_discharge system_losses
        safety_factor).inverter_size_kw
      = (calculate_microgrid_size daily_kwh_usage peak_kw_demand backup_hours
        solar_peak_hours battery_depth_of_discharge system_losses
        safety_factor).inverter_size_kw := by
  refine ⟨?_, ?_, rfl⟩
  · unfold required_battery_capacity adjusted_daily_usage
    ring
  · unfold required_solar_capacity adjusted_daily_usage
    ring

/-- C7: with everything else at the defaults, the pre-rounding battery
capacity at 72 backup hours is exactly 6 times the one at 12 backup
hours; after rounding the two outputs are 517.5 and 86.2. -/
theorem backup_hours_factor_six :
    required_battery_capacity 100 72 0.8 0.15 1.2
      = 6 * required_battery_capacity 100 12 0.8 0.15 1.2 ∧
    (calculate_microgrid_size 100 15 72 5 0.8 0.15 1.2).battery_capacity_kwh
      = 517.5 ∧
    (calculate_microgrid_size 100 15 12 5 0.8 0.15 1.2).battery_capacity_kwh
      = 86.2 := by
  refine ⟨?_, ?_, ?_⟩
  · unfold required_battery_capacity adjusted_daily_usage
    norm_num
  · unfold calculate_microgrid_size required_battery_capacity
      adjusted_daily_usage round1 roundHalfEven
    norm_num [Int.fract]
  · unfold calculate_microgrid_size required_battery_capacity
      adjusted_daily_usage round1 roundHalfEven
    norm_num [Int.fract]

/-- C5: all three outputs are non-decreasing in the daily usage, peak
demand, backup hours, system losses and safety factor, and non-increasing
in the solar peak hours and depth of discharge, for valid inputs and
in-domain configurations (stated jointly: moving every parameter in its
monotone direction at once cannot decrease any output, which contains the
one-parameter-at-a-time statement as the special case where the other
parameters stay fixed). -/
theorem results_monotone
    (d p B H D L S d' p' B' H' D' L' S' : ℚ)
    (hd : 0 < d) (hp : 0 < p)
    (hc : validConfig B H D L S) (hc' : validConfig B' H' D' L' S')
    (hdd : d ≤ d') (hpp : p ≤ p') (hBB : B ≤ B') (hHH : H' ≤ H)
    (hDD : D' ≤ D) (hLL : L ≤ L') (hSS : S ≤ S') :
    (calculate_microgrid_size d p B H D L S).battery_capacity_kwh
      ≤ (calculate_microgrid_size d' p' B' H' D' L' S').battery_capacity_kwh ∧
    (calculate_microgrid_size d p B H D L S).solar_capacity_kw
      ≤ (calculate_microgrid_size d' p' B' H' D' L' S').solar_capacity_kw ∧
    (calculate_microgrid_size d p B H D L S).inverter_size_kw
      ≤ (calculate_microgrid_size d' p' B' H' D' L' S').inverter_size_kw := by
  obtain ⟨hB1, hB2, hH1, hH2, hD1, hD2, hL1, hL2, hS1, hS2⟩ := hc
  obtain ⟨hB1', hB2', hH1', hH2', hD1', hD2', hL1', hL2', hS1', hS2'⟩ := hc'
  have hd' : 0 < d' := by linarith
  have hp' : 0 < p' := by linarith
  have hB0 : (0 : ℚ) < B := by linarith
  have hB0' : (0 : ℚ) < B' := by linarith
  have hH0 : (0 : ℚ) < H := by linarith
  have hH0' : (0 : ℚ) < H' := by linarith
  have hD0 : (0 : ℚ) < D := by linarith
  have hD0' : (0 : ℚ) < D' := by linarith
  have hL0 : (0 : ℚ) < L := by linarith
  have hL0' : (0 : ℚ) < L' := by linarith
  have hS0 : (0 : ℚ) < S := by linarith
  have hS0' : (0 : ℚ) < S' := by linarith
  refine ⟨round1_mono ?_, round1_mono ?_, round1_mono ?_⟩
  · unfold required_battery_capacity adjusted_daily_usage
    gcongr
  · unfold required_solar_capacity adjusted_daily_usage
    gcongr
  · unfold required_inverter_size adjusted_peak_demand
    gcongr

/-- C5 witness: the monotonicity theorem applied to the default scenario
against a pointwise larger-output scenario. -/
theorem results_monotone_witness :
    (0 : ℚ) < 100 ∧ (0 : ℚ) < 15 ∧
    validConfig 24 5 (4 / 5) (3 / 20) (6 / 5) ∧
    validConfig 48 4 (7 / 10) (1 / 5) (13 / 10) ∧
    (100 : ℚ) ≤ 200 ∧ (15 : ℚ) ≤ 20 ∧ (24 : ℚ) ≤ 48 ∧ (4 : ℚ) ≤ 5 ∧
    (7 / 10 : ℚ) ≤ 4 / 5 ∧ (3 / 20 : ℚ) ≤ 1 / 5 ∧ (6 / 5 : ℚ) ≤ 13 / 10 ∧
    ((calculate_microgrid_size 100 15 24 5 (4 / 5) (3 / 20)
        (6 / 5)).battery_capacity_kwh
      ≤ (calculate_microgrid_size 200 20 48 4 (7 / 10) (1 / 5)
        (13 / 10)).battery_capacity_kwh ∧
     (calculate_microgrid_size 100 15 24 5 (4 / 5) (3 / 20)
        (6 / 5)).solar_capacity_kw
      ≤ (calculate_microgrid_size 200 20 48 4 (7 / 10) (1 / 5)
        (13 / 10)).solar_capacity_kw ∧
     (calculate_microgrid_size 100 15 24 5 (4 / 5) (3 / 20)
        (6 / 5)).inverter_size_kw
      ≤ (calculate_microgrid_size 200 20 48 4 (7 / 10) (1 / 5)
        (13 / 10)).inverter_size_kw) :=
  ⟨by norm_num, by norm_num, by norm_num [validConfig],
   by norm_num [validConfig], by norm_num, by norm_num, by norm_num,
   by norm_num, by norm_num, by norm_num, by norm_num,
   results_monotone 100 15 24 5 (4 / 5) (3 / 20) (6 / 5)
     200 20 48 4 (7 / 10) (1 / 5) (13 / 10)
     (by norm_num) (by norm_num) (by norm_num [validConfig])
     (by norm_num [validConfig]) (by norm_num) (by norm_num) (by norm_num)
     (by norm_num) (by norm_num) (by norm_num) (by norm_num)⟩

/-- C8: for valid inputs the three outputs are non-negative, each is an
integer number of tenths (exactly one decimal place; over the rationals
every value is finite), and the rounding function resolves exact ties to
the even tenth. -/
theorem results_nonneg_one_decimal_half_even
    (d p B H D L S : ℚ) (hd : 0 < d) (hp : 0 < p)
    (hc : validConfig B H D L S) :
    (0 ≤ (calculate_microgrid_size d p B H D L S).battery_capacity_kwh ∧
     0 ≤ (calculate_microgrid_size d p B H D L S).solar_capacity_kw ∧
     0 ≤ (calculate_microgrid_size d p B H D L S).inverter_size_kw) ∧
    ((∃ n : ℤ, (calculate_microgrid_size d p B H D L S).battery_capacity_kwh
        = (n : ℚ) / 10) ∧
     (∃ n : ℤ, (calculate_microgrid_size d p B H D L S).solar_capacity_kw
        = (n : ℚ) / 10) ∧
     (∃ n : ℤ, (calculate_microgrid_size d p B H D L S).inverter_size_kw
        = (n : ℚ) / 10)) ∧
    (∀ k : ℤ, ∃ m : ℤ, m % 2 = 0 ∧
      round1 ((2 * (k : ℚ) + 1) / 20) = (m : ℚ) / 10) := by
  obtain ⟨hB1, hB2, hH1, hH2, hD1, hD2, hL1, hL2, hS1, hS2⟩ := hc
  have hB0 : (0 : ℚ) < B := by linarith
  have hH0 : (0 : ℚ) < H := by linarith
  have hD0 : (0 : ℚ) < D := by linarith
  have hL0 : (0 : ℚ) < L := by linarith
  have hS0 : (0 : ℚ) < S := by linarith
  refine ⟨⟨round1_nonneg ?_, round1_nonneg ?_, round1_nonneg ?_⟩,
    ⟨⟨_, rfl⟩, ⟨_, rfl⟩, ⟨_, rfl⟩⟩, ?_⟩
  · unfold required_battery_capacity adjusted_daily_usage
    positivity
  · unfold required_solar_capacity adjusted_daily_usage
    positivity
  · unfold required_inverter_size adjusted_peak_demand
    positivity
  · intro k
    refine ⟨roundHalfEven ((k : ℚ) + 1 / 2), roundHalfEven_tie k, ?_⟩
    unfold round1
    have harg : (2 * (k : ℚ) + 1) / 20 * 10 = (k : ℚ) + 1 / 2 := by ring
    rw [harg]

/-- C8 witness: the numeric-shape theorem applied to the default
scenario. -/
theorem results_nonneg_one_decimal_half_even_witness :
    (0 : ℚ) < 100 ∧ (0 : ℚ) < 15 ∧
    validConfig 24 5 (4 / 5) (3 / 20) (6 / 5) ∧
    ((0 ≤ (calculate_microgrid_size 100 15 24 5 (4 / 5) (3 / 20)
        (6 / 5)).battery_capacity_kwh ∧
      0 ≤ (calculate_microgrid_size 100 15 24 5 (4 / 5) (3 / 20)
        (6 / 5)).solar_capacity_kw ∧
      0 ≤ (calculate_microgrid_size 100 15 24 5 (4 / 5) (3 / 20)
        (6 / 5)).inverter_size_kw) ∧
     ((∃ n : ℤ, (calculate_microgrid_size 100 15 24 5 (4 / 5) (3 / 20)
          (6 / 5)).battery_capacity_kwh = (n : ℚ) / 10) ∧
      (∃ n : ℤ, (calculate_microgrid_size 100 15 24 5 (4 / 5) (3 / 20)
          (6 / 5)).solar_capacity_kw = (n : ℚ) / 10) ∧
      (∃ n : ℤ, (calculate_microgrid_size 100 15 24 5 (4 / 5) (3 / 20)
          (6 / 5)).inverter_size_kw = (n : ℚ) / 10)) ∧
     (∀ k : ℤ, ∃ m : ℤ, m % 2 = 0 ∧
        round1 ((2 * (k : ℚ) + 1) / 20) = (m : ℚ) / 10)) :=
  ⟨by norm_num, by norm_num, by norm_num [validConfig],
   results_nonneg_one_decimal_half_even 100 15 24 5 (4 / 5) (3 / 20) (6 / 5)
     (by norm_num) (by norm_num) (by norm_num [validConfig])⟩

/-- C9: the function is deterministic: two calls on identical inputs and
identical configuration return identical results (the embedding is a pure
function of its arguments, with no other state). -/
theorem compute_deterministic
    (d p B H D L S d' p' B' H' D' L' S' : ℚ)
    (h : (d, p, B, H, D, L, S) = (d', p', B', H', D', L', S')) :
    calculate_microgrid_size d p B H D L S
      = calculate_microgrid_size d' p' B' H' D' L' S' := by
  simp only [Prod.mk.injEq] at h
  obtain ⟨rfl, rfl, rfl, rfl, rfl, rfl, rfl⟩ := h
  rfl

/-- C9 witness: determinism at the default scenario. -/
theorem compute_deterministic_witness :
    ((100 : ℚ), (15 : ℚ), (24 : ℚ), (5 : ℚ), (4 / 5 : ℚ), (3 / 20 : ℚ),
        (6 / 5 : ℚ))
      = ((100 : ℚ), (15 : ℚ), (24 : ℚ), (5 : ℚ), (4 / 5 : ℚ), (3 / 20 : ℚ),
        (6 / 5 : ℚ)) ∧
    calculate_microgrid_size 100 15 24 5 (4 / 5) (3 / 20) (6 / 5)
      = calculate_microgrid_size 100 15 24 5 (4 / 5) (3 / 20) (6 / 5) :=
  ⟨rfl, compute_deterministic 100 15 24 5 (4 / 5) (3 / 20) (6 / 5)
    100 15 24 5 (4 / 5) (3 / 20) (6 / 5) rfl⟩

/-- C10: both divisors are nonzero whenever the configuration meets its
stated lower bounds, so the division-error branch is unreachable and the
evaluation always returns a normal result. -/
theorem divisions_nonzero_in_domain
    (d p B H D L S : ℚ) (hD : 1 / 2 ≤ D) (hH : 3 ≤ H) :
    calculate_microgrid_size_checked d p B H D L S
      = some (calculate_microgrid_size d p B H D L S) := by
  have hD0 : ¬ D = 0 := by
    intro h0
    rw [h0] at hD
    linarith
  have hH0 : ¬ H = 0 := by
    intro h0
    rw [h0] at hH
    linarith
  unfold calculate_microgrid_size_checked
  rw [if_neg hD0, if_neg hH0]

/-- C10 witness: no division error at the default configuration. -/
theorem divisions_nonzero_in_domain_witness :
    (1 / 2 : ℚ) ≤ 4 / 5 ∧ (3 : ℚ) ≤ 5 ∧
    calculate_microgrid_size_checked 100 15 24 5 (4 / 5) (3 / 20) (6 / 5)
      = some (calculate_microgrid_size 100 15 24 5 (4 / 5) (3 / 20)
        (6 / 5)) :=
  ⟨by norm_num, by norm_num,
   divisions_nonzero_in_domain 100 15 24 5 (4 / 5) (3 / 20) (6 / 5)
     (by norm_num) (by norm_num)⟩

end SolarMicrogrid
